import Mathlib

/-!
# Verification of the Lucidic Python SDK ingestion pipeline

Shallow embedding of the core of the Lucidic SDK (event queue with
dependency-aware dispatch, blob offload, previews, event creation, ambient
session resolution, HTTP error mapping, configuration update) together with
proofs and refutations of the specified properties.

Python dictionaries, lists, strings, numbers, booleans and `None` are
modelled by the inductive type `JValue`.  Machine-level concerns (threads,
sockets, wall-clock time) are modelled by explicit state passing and by
oracles passed as ordinary arguments; each definition's doc comment names
the source function it embeds.
-/

namespace Lucidic

/-- Model of a Python JSON-serializable value (`None`, `bool`, `int`,
`str`, `list`, `dict`).  Floats do not occur in the payload logic we model. -/
inductive JValue where
  | null : JValue
  | bool (b : Bool) : JValue
  | int (n : Int) : JValue
  | str (s : String) : JValue
  | arr (xs : List JValue) : JValue
  | obj (fields : List (String × JValue)) : JValue
deriving Inhabited

/-- `value is None` (Python identity test against `None`). -/
def JValue.isNull : JValue → Bool
  | .null => true
  | _ => false

/-- Escaping of a single character as performed by Python's
`json.dumps(..., ensure_ascii=False)`: `"` and `\` are escaped, control
characters below U+0020 use the short escapes `\n`, `\t`, `\r`, `\b`, `\f`
or a `\u00XX` escape, every other character is emitted verbatim. -/
def escapeChar (c : Char) : String :=
  if c = '"' then "\\\""
  else if c = '\\' then "\\\\"
  else if c = '\n' then "\\n"
  else if c = '\t' then "\\t"
  else if c = '\r' then "\\r"
  else if c.toNat = 8 then "\\b"
  else if c.toNat = 12 then "\\f"
  else if c.toNat < 32 then
    let hex := Nat.toDigits 16 c.toNat
    let hexStr := String.mk hex
    "\\u" ++ (String.mk (List.replicate (4 - hexStr.length) '0')) ++ hexStr
  else String.singleton c

/-- JSON string-literal escaping (body only, quotes added by the caller). -/
def escapeString (s : String) : String :=
  String.join (s.toList.map escapeChar)

mutual

/-- Compact JSON serialization: `json.dumps(v, separators=(",", ":"),
ensure_ascii=False)` as used throughout the queue and event modules. -/
def serialize : JValue → String
  | .null => "null"
  | .bool true => "true"
  | .bool false => "false"
  | .int n => toString n
  | .str s => "\"" ++ escapeString s ++ "\""
  | .arr xs => "[" ++ serializeList xs ++ "]"
  | .obj fs => "\x7b" ++ serializeFields fs ++ "\x7d"

/-- Comma-separated serialization of array elements. -/
def serializeList : List JValue → String
  | [] => ""
  | [x] => serialize x
  | x :: xs => serialize x ++ "," ++ serializeList xs

/-- Comma-separated serialization of object fields. -/
def serializeFields : List (String × JValue) → String
  | [] => ""
  | [(k, v)] => "\"" ++ escapeString k ++ "\":" ++ serialize v
  | (k, v) :: fs => "\"" ++ escapeString k ++ "\":" ++ serialize v ++ "," ++ serializeFields fs

end

/-- Byte length of the compact UTF-8 JSON serialization of a payload:
`len(json.dumps(payload, separators=(",", ":"), ensure_ascii=False).encode("utf-8"))`. -/
def jsonByteSize (v : JValue) : Nat :=
  (serialize v).utf8ByteSize

/-- Python truthiness of a modelled value (`bool(v)`). -/
def pyTruthy : JValue → Bool
  | .null => false
  | .bool b => b
  | .int n => n != 0
  | .str s => s != ""
  | .arr xs => !xs.isEmpty
  | .obj fs => !fs.isEmpty

/-- Truthiness of an optional string (`if x:` where `x` is `None` or `str`). -/
def optStrTruthy : Option String → Bool
  | none => false
  | some s => s != ""

end Lucidic

namespace Lucidic.Config

/-- `TelemetryConfig` (src/lucidicai/core/config.py).  Attribute values are
Python objects, so they are modelled as `JValue`s. -/
structure TelemetryConfig where
  providers : JValue
  verbose : JValue

/-- `SDKConfig` (src/lucidicai/core/config.py): the dataclass fields, in
declaration order.  Sub-configurations other than `telemetry` play no role in
`update` beyond being assignable attributes, so they are modelled as opaque
attribute slots of type `JValue`. -/
structure SDKConfig where
  api_key : JValue
  agent_id : JValue
  auto_end : JValue
  production_monitoring : JValue
  blob_threshold : JValue
  network : JValue
  error_handling : JValue
  telemetry : TelemetryConfig
  environment : JValue
  debug : JValue

/-- The attribute names of `SDKConfig`: `hasattr(self, key)` holds exactly
for these keys. -/
def sdkConfigAttrs : List String :=
  ["api_key", "agent_id", "auto_end", "production_monitoring", "blob_threshold",
   "network", "error_handling", "telemetry", "environment", "debug"]

/-- `setattr(self, key, value)` for a key that exists on `SDKConfig`.
`telemetry` can be overwritten wholesale only in Python (replacing the
sub-config object); that case never matters to the claims, and is modelled
by replacing both sub-fields with the given value. -/
def setAttr (c : SDKConfig) (key : String) (v : JValue) : SDKConfig :=
  if key = "api_key" then { c with api_key := v }
  else if key = "agent_id" then { c with agent_id := v }
  else if key = "auto_end" then { c with auto_end := v }
  else if key = "production_monitoring" then { c with production_monitoring := v }
  else if key = "blob_threshold" then { c with blob_threshold := v }
  else if key = "network" then { c with network := v }
  else if key = "error_handling" then { c with error_handling := v }
  else if key = "telemetry" then { c with telemetry := ⟨v, v⟩ }
  else if key = "environment" then { c with environment := v }
  else if key = "debug" then { c with debug := v }
  else c

/-- `getattr(self, key)` for the scalar attribute slots (used to state the
frame conditions; `telemetry` is observed through its sub-fields). -/
def getAttr (c : SDKConfig) (key : String) : JValue :=
  if key = "api_key" then c.api_key
  else if key = "agent_id" then c.agent_id
  else if key = "auto_end" then c.auto_end
  else if key = "production_monitoring" then c.production_monitoring
  else if key = "blob_threshold" then c.blob_threshold
  else if key = "network" then c.network
  else if key = "error_handling" then c.error_handling
  else if key = "environment" then c.environment
  else if key = "debug" then c.debug
  else .null

/-- One iteration of the loop body of `SDKConfig.update`
(src/lucidicai/core/config.py, lines 127-133): skip `None` values, set
existing attributes, route the special `providers` key to
`self.telemetry.providers`. -/
def updateStep (c : SDKConfig) (kv : String × JValue) : SDKConfig :=
  if !kv.2.isNull then
    if kv.1 ∈ sdkConfigAttrs then
      setAttr c kv.1 kv.2
    else if kv.1 = "providers" then
      { c with telemetry := { c.telemetry with providers := kv.2 } }
    else c
  else c

/-- `SDKConfig.update(**kwargs)` (src/lucidicai/core/config.py):
`for key, value in kwargs.items(): ...`.  Keyword arguments are modelled as
an association list in iteration order; Python's `None` is `JValue.null`. -/
def update (c : SDKConfig) (kwargs : List (String × JValue)) : SDKConfig :=
  kwargs.foldl updateStep c

end Lucidic.Config

namespace Lucidic.Preview

open Lucidic

/-- A raised Python exception (`AttributeError`, `TypeError`, `KeyError`, …);
the preview code catches all of them alike, so one constructor suffices. -/
inductive PyExc where
  | exc : PyExc
deriving DecidableEq, Repr

mutual

/-- Python `str(v)` for the values we model (`repr` is used for elements of
containers; quote escaping inside `repr` of strings is not modelled — it
never influences anything but truncated preview text). -/
def pyStr : JValue → String
  | .null => "None"
  | .bool true => "True"
  | .bool false => "False"
  | .int n => toString n
  | .str s => s
  | .arr xs => "[" ++ pyReprList xs ++ "]"
  | .obj fs => "\x7b" ++ pyReprFields fs ++ "\x7d"

/-- Python `repr(v)`. -/
def pyRepr : JValue → String
  | .null => "None"
  | .bool true => "True"
  | .bool false => "False"
  | .int n => toString n
  | .str s => "'" ++ s ++ "'"
  | .arr xs => "[" ++ pyReprList xs ++ "]"
  | .obj fs => "\x7b" ++ pyReprFields fs ++ "\x7d"

/-- `repr` of list elements, separated by `", "`. -/
def pyReprList : List JValue → String
  | [] => ""
  | [x] => pyRepr x
  | x :: xs => pyRepr x ++ ", " ++ pyReprList xs

/-- `repr` of dict entries, separated by `", "`. -/
def pyReprFields : List (String × JValue) → String
  | [] => ""
  | [(k, v)] => "'" ++ k ++ "': " ++ pyRepr v
  | (k, v) :: fs => "'" ++ k ++ "': " ++ pyRepr v ++ ", " ++ pyReprFields fs

end

/-- `v.get(key, default)`: dictionary lookup with a default; raises
(`AttributeError`) when `v` is not a dict. -/
def pyGetD (v : JValue) (key : String) (dflt : JValue) : Except PyExc JValue :=
  match v with
  | .obj fs => .ok (((fs.find? (fun kv => kv.1 == key)).map Prod.snd).getD dflt)
  | _ => .error .exc

/-- `v.get(key)` (default `None`). -/
def pyGet (v : JValue) (key : String) : Except PyExc JValue :=
  pyGetD v key .null

/-- `v[:n]`: slicing works on strings and lists, raises `TypeError`
otherwise. -/
def pySlice (n : Nat) (v : JValue) : Except PyExc JValue :=
  match v with
  | .str s => .ok (.str (String.mk (s.toList.take n)))
  | .arr xs => .ok (.arr (xs.take n))
  | _ => .error .exc

/-- `v.items()`: raises unless `v` is a dict. -/
def pyItems (v : JValue) : Except PyExc (List (String × JValue)) :=
  match v with
  | .obj fs => .ok fs
  | _ => .error .exc

/-- `key in v`: key test on dicts, element test on lists, substring test on
strings, `TypeError` otherwise. -/
def pyContains (key : String) (v : JValue) : Except PyExc Bool :=
  match v with
  | .obj fs => .ok (fs.any (fun kv => kv.1 == key))
  | .arr xs => .ok (xs.any (fun x => match x with | .str s => s == key | _ => false))
  | .str s => .ok (decide (key.toList <:+: s.toList))
  | _ => .error .exc

/-- `str(v)[:200]` (total: `str` never raises and string slicing is safe). -/
def truncStr (v : JValue) : JValue :=
  .str (String.mk ((pyStr v).toList.take 200))

/-- `x[:200] if x else None` — the truncation idiom used for `model`,
`provider`, `function_name`, `error` and `details`; slicing a truthy
non-sliceable value raises. -/
def truncOrNone (v : JValue) : Except PyExc JValue :=
  if pyTruthy v then pySlice 200 v else .ok .null

/-- One compressed message of the `llm_generation` preview:
`for k, v in m.items(): item[k] = str(v)[:200] if v else None`. -/
def compressMessage (m : JValue) : Except PyExc JValue := do
  let fields ← pyItems m
  pure (.obj (fields.map (fun kv => (kv.1, if pyTruthy kv.2 then truncStr kv.2 else .null))))

/-- The sliced `messages` value iterated by the preview loop: a list maps
each element through `compressMessage`; iterating a non-empty string yields
one-character strings whose `.items()` raises; an empty string yields an
empty loop.  Other values cannot reach this point (slicing already raised). -/
def compressMessages : JValue → Except PyExc (List JValue)
  | .arr ms => ms.mapM compressMessage
  | .str s => if s.isEmpty then .ok [] else .error .exc
  | _ => .error .exc

/-- One entry of `{k: usage.get(k) for k in ("input_tokens", "output_tokens",
"cost") if k in usage}`. -/
def usageEntry (usage : JValue) (k : String) : Except PyExc (Option (String × JValue)) := do
  let b ← pyContains k usage
  if b then
    let v ← pyGet usage k
    pure (some (k, v))
  else
    pure none

/-- The body of the type dispatch shared verbatim by
`ParallelEventQueue._to_preview` (src/lucidicai/event_queue_parallel.py,
lines 466-510) and `_create_preview` (src/lucidicai/sdk/event.py, lines
49-96): returns `none` when no branch matches the (lowercased) type. -/
def previewBody (t : String) (payload : JValue) : Except PyExc (Option JValue) :=
  if t = "llm_generation" then do
    let req ← pyGetD payload "request" (.obj [])
    let usage ← pyGetD payload "usage" (.obj [])
    let messagesRaw ← pyGetD req "messages" (.arr [])
    let messages ← pySlice 5 messagesRaw
    let respObj ← pyGetD payload "response" (.obj [])
    let output ← pyGetD respObj "output" (.obj [])
    let compressed ← compressMessages messages
    let model ← pyGet req "model"
    let modelV ← truncOrNone model
    let provider ← pyGet req "provider"
    let providerV ← truncOrNone provider
    let usageEntries ← ["input_tokens", "output_tokens", "cost"].mapM (usageEntry usage)
    pure (some (.obj [
      ("request", .obj [("model", modelV), ("provider", providerV),
                        ("messages", .arr compressed)]),
      ("usage", .obj (usageEntries.filterMap id)),
      ("response", .obj [("output", if pyTruthy output then truncStr output else .null)])]))
  else if t = "function_call" then do
    let args ← pyGet payload "arguments"
    let truncatedArgs ←
      match args with
      | .obj fs =>
          pure (JValue.obj (fs.map (fun kv =>
            (kv.1, if kv.2.isNull then JValue.null else truncStr kv.2))))
      | a => pure (if a.isNull then JValue.null else truncStr a)
    let fn ← pyGet payload "function_name"
    let fnV ← truncOrNone fn
    pure (some (.obj [("function_name", fnV), ("arguments", truncatedArgs)]))
  else if t = "error_traceback" then do
    let e ← pyGet payload "error"
    let eV ← truncOrNone e
    pure (some (.obj [("error", eV)]))
  else if t = "generic" then do
    let d ← pyGet payload "details"
    let dV ← truncOrNone d
    pure (some (.obj [("details", dV)]))
  else
    pure none

/-- `(event_type or "generic")`: Python `or` on an optional string. -/
def pyOrStr (a : Option String) (dflt : String) : String :=
  match a with
  | some s => if s ≠ "" then s else dflt
  | none => dflt

/-- Python `str.lower()` (ASCII case folding, which covers every event type
string the SDK uses). -/
def pyLower (s : String) : String :=
  String.mk (s.toList.map Char.toLower)

/-- `ParallelEventQueue._to_preview` (src/lucidicai/event_queue_parallel.py,
lines 463-513): the `try` body is `previewBody`; both a caught exception and
an unrecognized type fall through to `{"details": "preview_unavailable"}`. -/
def toPreview (eventType : Option String) (payload : JValue) : JValue :=
  match previewBody (pyLower (pyOrStr eventType "generic")) payload with
  | .ok (some p) => p
  | .ok none => .obj [("details", .str "preview_unavailable")]
  | .error _ => .obj [("details", .str "preview_unavailable")]

/-- `_create_preview` (src/lucidicai/sdk/event.py, lines 46-101): an
unrecognized type returns `{"details": "preview_unavailable"}` from the
explicit `else`, while a caught exception returns
`{"details": "preview_error"}`. -/
def createPreview (eventType : Option String) (payload : JValue) : JValue :=
  match previewBody (pyLower (pyOrStr eventType "generic")) payload with
  | .ok (some p) => p
  | .ok none => .obj [("details", .str "preview_unavailable")]
  | .error _ => .obj [("details", .str "preview_error")]

end Lucidic.Preview

namespace Lucidic.Queue

open Lucidic Lucidic.Preview

/-- A queued event request (the dict handed to `queue_event`), restricted to
the fields the queue logic reads.  `queue_event` guarantees `defer_count` is
present (default 0), so it is total here; further envelope fields
(`session_id`, `occurred_at`, tags, …) are carried through unchanged by the
queue and are not modelled. -/
structure QItem where
  client_event_id : Option String
  client_parent_event_id : Option String
  defer_count : Nat
  retry_count : Nat
  type : Option String
  payload : JValue

/-- Result of a queue enqueue attempt. -/
inductive EnqueueOutcome where
  | enqueued : EnqueueOutcome
  /-- `queue.Full` was caught; the only side effect is a `logger.debug`
  call guarded by the `DEBUG` flag. -/
  | droppedDebug : EnqueueOutcome
deriving DecidableEq, Repr

/-- `ParallelEventQueue.queue_event` (src/lucidicai/event_queue_parallel.py,
lines 76-94) and `EventQueue.queue_event` (src/lucidicai/event_queue.py,
lines 49-81): a bounded `queue.Queue(maxsize)` accepts the item iff its
current size is below `maxsize`; the 1 ms blocking `put` is modelled without
a concurrent consumer, so a full queue raises `queue.Full`, which is caught
and the incoming item dropped.  The flush-signal side effect does not change
the queue contents and is not modelled. -/
def queue_event (maxSize : Nat) (q : List QItem) (item : QItem) :
    List QItem × EnqueueOutcome :=
  if q.length < maxSize then
    (q ++ [item], .enqueued)
  else
    (q, .droppedDebug)

/-- The body POSTed to the `events` endpoint: the original request dict
(with `payload` possibly replaced by a preview) plus the `needs_blob` flag. -/
structure SendBody where
  event : QItem
  needs_blob : Bool

/-- The blob-offload section of `ParallelEventQueue._send_event_impl`
(src/lucidicai/event_queue_parallel.py, lines 374-384): serialize the
payload compactly, offload iff strictly larger than the threshold, copy the
request and set `needs_blob` (replacing the payload by its preview when
offloading).  Returns the POST body and whether a blob upload will follow. -/
def buildSendBody (threshold : Nat) (item : QItem) : SendBody × Bool :=
  let rawSize := jsonByteSize item.payload
  if rawSize > threshold then
    ({ event := { item with payload := toPreview item.type item.payload },
       needs_blob := true }, true)
  else
    ({ event := item, needs_blob := false }, false)

/-- `parent_id and parent_id not in self._sent_ids`: the item has a truthy
parent id that has not been recorded as dispatched. -/
def parentPending (sentIds : List String) (item : QItem) : Bool :=
  match item.client_parent_event_id with
  | none => false
  | some p => p != "" && !(sentIds.contains p)

/-- One dispatch attempt's observable outcome. -/
inductive SendAction where
  /-- `_send_event_impl` appended the incremented item to the deferred list
  and returned `True` without any HTTP traffic. -/
  | deferredSuccess (item' : QItem) : SendAction
  /-- `_send_event_impl` POSTed `body` to the `events` endpoint, followed by
  a blob `PUT` iff `blobUpload`. -/
  | posted (body : SendBody) (blobUpload : Bool) : SendAction

/-- `ParallelEventQueue._send_event_impl` (src/lucidicai/event_queue_parallel.py,
lines 357-410), first successful attempt: defer when the parent is pending
and `defer_count < 5`; otherwise build the POST body.  The 3-attempt retry
loop rebuilds an identical body on each attempt, so a run in which the POST
succeeds is fully described by this step (failure handling is layered on in
`processBatch`, whose HTTP oracle here always succeeds). -/
def sendEventStep (threshold : Nat) (sentIds : List String) (item : QItem) : SendAction :=
  if parentPending sentIds item && decide (item.defer_count < 5) then
    .deferredSuccess { item with defer_count := item.defer_count + 1 }
  else
    let (body, offload) := buildSendBody threshold item
    .posted body offload

/-- `if not parent_id or parent_id in processed_ids` — eligibility of an
event during one grouping pass of `_group_by_dependencies`. -/
def eligible (processed : List String) (e : QItem) : Bool :=
  match e.client_parent_event_id with
  | none => true
  | some p => p == "" || processed.contains p

/-- `if event_id := event.get("client_event_id"): processed_ids.add(event_id)`
(also the identical guard in `_process_batch_parallel`): record a truthy id.
Python's set insertion is modelled by appending to a list; duplicates do not
affect membership tests. -/
def addId (ids : List String) (eventId : Option String) : List String :=
  match eventId with
  | some id => if id != "" then ids ++ [id] else ids
  | none => ids

/-- One `for event in remaining` pass of `_group_by_dependencies`
(src/lucidicai/event_queue_parallel.py, lines 321-331): split `remaining`
into the current group and the next remainder, extending `processed_ids`
with the id of every event placed in the group *as the pass runs*. -/
def groupPass (processed : List String) :
    List QItem → List QItem × List QItem × List String
  | [] => ([], [], processed)
  | e :: rest =>
    if eligible processed e then
      let r := groupPass (addId processed e.client_event_id) rest
      (e :: r.1, r.2.1, r.2.2)
    else
      let r := groupPass processed rest
      (r.1, e :: r.2.1, r.2.2)

/-- The `while remaining and safety_counter < max_iterations` loop of
`_group_by_dependencies` (lines 316-341), with `fuel` the number of
iterations the safety counter still allows: a non-empty pass appends its
group and continues on the remainder; an empty pass while items remain
appends all remaining items as one final group and breaks. -/
def groupLoop : Nat → List String → List QItem → List (List QItem) → List (List QItem)
  | _, _, [], groups => groups
  | 0, _, _, groups => groups
  | fuel + 1, processed, remaining, groups =>
    let (g, r, processed') := groupPass processed remaining
    if g.isEmpty then
      groups ++ [remaining]
    else
      groupLoop fuel processed' r (groups ++ [g])

/-- `ParallelEventQueue._group_by_dependencies`
(src/lucidicai/event_queue_parallel.py, lines 304-343): `processed_ids`
starts as a copy of `self._sent_ids` and
`max_iterations = len(events) * 2 if events else 1`. -/
def groupByDependencies (sentIds : List String) (events : List QItem) :
    List (List QItem) :=
  groupLoop (if events.isEmpty then 1 else events.length * 2) sentIds events []

/-- Queue state relevant to dispatch ordering: the delivered-id set
`_sent_ids` (kept in insertion order) and the deferred list. -/
structure QState where
  sentIds : List String
  deferred : List QItem

/-- Dispatching one event inside `_process_batch_parallel`
(src/lucidicai/event_queue_parallel.py, lines 274-295) under the schedule
where the pool completes events in submission order and every POST succeeds:
the future's `True` result — returned both for a real POST and for a
deferral — makes the coordinator add the event's id to `_sent_ids`. -/
def processEvent (threshold : Nat) (st : QState) (e : QItem) : QState × SendAction :=
  match sendEventStep threshold st.sentIds e with
  | .deferredSuccess e' =>
    ({ sentIds := addId st.sentIds e.client_event_id,
       deferred := st.deferred ++ [e'] }, .deferredSuccess e')
  | .posted body offload =>
    ({ sentIds := addId st.sentIds e.client_event_id,
       deferred := st.deferred }, .posted body offload)

/-- Dispatching one dependency group, events in submission order. -/
def processGroup (threshold : Nat) (st : QState) : List QItem → QState × List SendAction
  | [] => (st, [])
  | e :: rest =>
    let r := processEvent threshold st e
    let r' := processGroup threshold r.1 rest
    (r'.1, r.2 :: r'.2)

/-- Dispatching the dependency groups in order, waiting for each group to
finish before the next starts. -/
def processGroups (threshold : Nat) (st : QState) :
    List (List QItem) → QState × List SendAction
  | [] => (st, [])
  | g :: gs =>
    let r := processGroup threshold st g
    let r' := processGroups threshold r.1 gs
    (r'.1, r.2 ++ r'.2)

/-- `ParallelEventQueue._process_batch_parallel`
(src/lucidicai/event_queue_parallel.py, lines 250-302) under the
all-POSTs-succeed oracle: pull the deferred items into the batch
(`batch.extend(...)`, so they follow the incoming items), group by
dependencies against the current `_sent_ids`, then dispatch group by group.
With no failures the retry path (lines 300-302) is never taken. -/
def processBatch (threshold : Nat) (st : QState) (incoming : List QItem) :
    QState × List SendAction :=
  processGroups threshold { st with deferred := [] }
    (groupByDependencies st.sentIds (incoming ++ st.deferred))

/-- The client ids of the events actually POSTed in a trace (in order). -/
def postedIds : List SendAction → List (Option String)
  | [] => []
  | .posted body _ :: rest => body.event.client_event_id :: postedIds rest
  | .deferredSuccess _ :: rest => postedIds rest

/-- The gate `_send_event_impl` enforces at the moment it POSTs an event:
no parent, an empty parent, a parent recorded in `_sent_ids`, or deferral
exhausted (`defer_count ≥ 5`). -/
def postGateOk (sentIds : List String) (e : QItem) : Bool :=
  !(parentPending sentIds e) || decide (5 ≤ e.defer_count)

/-- The `_sent_ids` set resulting from replaying a trace: the coordinator
adds the event id on every success, deferrals included. -/
def replaySent : List String → List SendAction → List String
  | ids, [] => ids
  | ids, .deferredSuccess e :: rest => replaySent (addId ids e.client_event_id) rest
  | ids, .posted body _ :: rest =>
      replaySent (addId ids body.event.client_event_id) rest

/-- Replays a trace against a starting `_sent_ids`, checking the POST gate
for every POSTed event and extending the id set exactly as the coordinator
does (on every success, deferrals included). -/
def traceRespectsGate : List String → List SendAction → Bool
  | _, [] => true
  | ids, .deferredSuccess e' :: rest =>
      traceRespectsGate (addId ids e'.client_event_id) rest
  | ids, .posted body _ :: rest =>
      postGateOk ids body.event &&
      traceRespectsGate (addId ids body.event.client_event_id) rest

end Lucidic.Queue

namespace Lucidic.Ambient

open Lucidic

/-- The ambient stores consulted by `get_session_id`, from the point of view
of the calling thread: the entry of `_sdk_state.task_sessions` for the
current asyncio task (`none` when there is no entry), whether
`asyncio.current_task()` yields a task at all, whether the caller is the
main thread, `getattr(thread_local, 'session_id', None)`,
`_sdk_state.session_id`, and `current_session_id.get()` (a context variable
declared in the sdk context module). -/
structure AmbientState where
  inAsyncTask : Bool
  taskSession : Option String
  isMainThread : Bool
  threadSession : Option String
  globalSession : Option String
  contextSession : Option String

/-- `get_session_id` (src/lucidicai/sdk/init.py, lines 485-516): a truthy
task-local session wins; otherwise a non-main thread returns its
thread-local value with no fallback; the main thread returns
`_sdk_state.session_id or current_session_id.get()`. -/
def get_session_id (st : AmbientState) : Option String :=
  if optStrTruthy (if st.inAsyncTask then st.taskSession else none) then
    (if st.inAsyncTask then st.taskSession else none)
  else if !st.isMainThread then
    st.threadSession
  else if optStrTruthy st.globalSession then
    st.globalSession
  else
    st.contextSession

end Lucidic.Ambient

namespace Lucidic.Http

open Lucidic

/-- The SDK's error classes as raised by `HttpClient._make_request`
(src/lucidicai/client/http_client.py).  Their class definitions live in
`lucidicai/util/errors.py`, which is not under src/; modelled from the spec:
§7's taxonomy distinguishes authentication errors
(`APIKeyVerificationError`) from operational errors
(`InvalidOperationError`), each carrying a message string. -/
inductive LucidicError where
  | apiKeyVerificationError (msg : String) : LucidicError
  | invalidOperationError (msg : String) : LucidicError
deriving DecidableEq, Repr

/-- What the underlying `requests.Session.request` call produced: either a
network-level failure (`requests.exceptions.RequestException`, after the
adapter's transient retries are exhausted) or an HTTP response with a
status code, a body text and a parsed JSON value. -/
inductive HttpAttempt where
  | networkError : HttpAttempt
  | response (status : Nat) (text : String) (json : JValue) : HttpAttempt

/-- `HttpClient._make_request` (src/lucidicai/client/http_client.py, lines
105-150), from the `session.request` call onward.  `httpErrorStr status`
models `str(e)` of the `requests.exceptions.HTTPError` raised by
`response.raise_for_status()`, which raises exactly for statuses in
400..599.  The `current_time` injection only adds a field to the outgoing
body and is not modelled. -/
def make_request (httpErrorStr : Nat → String) (att : HttpAttempt) :
    Except LucidicError JValue :=
  match att with
  | .networkError =>
      .error (.invalidOperationError "Cannot reach backend. Check your internet connection.")
  | .response status text json =>
      if status = 401 then
        .error (.apiKeyVerificationError "Invalid API key: 401 Unauthorized")
      else if status = 402 then
        .error (.invalidOperationError "Invalid operation: 402 Insufficient Credits")
      else if status = 403 then
        .error (.apiKeyVerificationError "Invalid API key: 403 Forbidden")
      else if 400 ≤ status ∧ status < 600 then
        .error (.invalidOperationError
          ("Request to Lucidic AI Backend failed: " ++ (if text ≠ "" then text else httpErrorStr status)))
      else
        .ok json

end Lucidic.Http

namespace Lucidic.Event

open Lucidic Lucidic.Preview Lucidic.Queue

/-- Modelled from the spec: `EventBuilder.build`
(`lucidicai/sdk/event_builder.py` is not under src/).  §4.4: the builder
normalizes `(type, kwargs)` into the common envelope — session id, client
event id, optional client parent event id, type, occurred-at, …, payload —
performing no I/O.  The type-specific payload normalization is abstracted
as the given `payload`; the envelope fields used by `create_event` are kept. -/
structure BuiltEvent where
  client_event_id : String
  client_parent_event_id : Option String
  session_id : String
  type : String
  payload : JValue

/-- Modelled from the spec: the `EventBuilder.build(params)` call in
`_prepare_event_request` copies the parameters assembled at
src/lucidicai/sdk/event.py lines 138-145 into the envelope. -/
def EventBuilder.build (type client_event_id : String)
    (parent_event_id : Option String) (session_id : String)
    (payload : JValue) : BuiltEvent :=
  { client_event_id := client_event_id,
    client_parent_event_id := parent_event_id,
    session_id := session_id,
    type := type,
    payload := payload }

/-- The event request dict as a queue item (only the fields the dispatch
logic reads). -/
def BuiltEvent.toQItem (b : BuiltEvent) : QItem :=
  { client_event_id := some b.client_event_id,
    client_parent_event_id := b.client_parent_event_id,
    defer_count := 0,
    retry_count := 0,
    type := some b.type,
    payload := b.payload }

/-- `client_event_id = event_id or str(uuid.uuid4())`
(src/lucidicai/sdk/event.py, line 135): Python `or` on the optional id. -/
def chosenEventId (event_id : Option String) (freshUuid : String) : String :=
  match event_id with
  | some e => if e ≠ "" then e else freshUuid
  | none => freshUuid

/-- The session id `_prepare_event_request` resolves at lines 119-120:
the explicit argument when truthy, else `get_session_id()`. -/
def resolvedSession (session_id ambient : Option String) : Option String :=
  if optStrTruthy session_id then session_id else ambient

/-- `needs_blob = len(raw_bytes) > blob_threshold` (line 155). -/
def prepNeedsBlob (blob_threshold : Nat) (payload : JValue) : Bool :=
  decide (jsonByteSize payload > blob_threshold)

/-- The `send_body` of lines 160-165: the built request, its payload
replaced by `_create_preview` when offloading. -/
def prepSendBody (type : String) (event_id : Option String)
    (session_id ambient parentCtx : Option String) (blob_threshold : Nat)
    (freshUuid : String) (payload : JValue) : BuiltEvent :=
  let req := EventBuilder.build type (chosenEventId event_id freshUuid) parentCtx
    ((resolvedSession session_id ambient).getD "") payload
  if prepNeedsBlob blob_threshold payload then
    { req with payload := createPreview (some req.type) payload }
  else req

/-- `_prepare_event_request` (src/lucidicai/sdk/event.py, lines 104-167).
`ambient` is what `get_session_id()` returns, `parentCtx` the value of the
`current_parent_event_id` context variable, `freshUuid` the
`str(uuid.uuid4())` drawn at line 135, `payload` the normalized payload the
builder produces from the kwargs.  Returns `none` when no session resolves
(the caller then returns a dummy id), otherwise the send body, the
`needs_blob` flag, and the original payload when offloading. -/
def prepare_event_request (type : String) (event_id : Option String)
    (session_id : Option String) (blob_threshold : Nat)
    (ambient : Option String) (parentCtx : Option String)
    (freshUuid : String) (payload : JValue) :
    Option ((BuiltEvent × Bool) × Bool × Option JValue) :=
  if optStrTruthy (resolvedSession session_id ambient) then
    some ((prepSendBody type event_id session_id ambient parentCtx blob_threshold
             freshUuid payload,
           prepNeedsBlob blob_threshold payload),
          prepNeedsBlob blob_threshold payload,
          if prepNeedsBlob blob_threshold payload then some payload else none)
  else
    none

/-- Observable outcome of `create_event`: the returned id and, when the
events resource was invoked, the body handed to it (`needs_blob` flag
included). -/
structure CreateEventResult where
  returned : String
  transmitted : Option (BuiltEvent × Bool)

/-- `create_event` (src/lucidicai/sdk/event.py, lines 170-226).  `fresh1` is
the UUID drawn inside `_prepare_event_request`, `fresh2` the one drawn on
the no-session path (line 198).  The default of
`send_body.get('client_event_id', str(uuid.uuid4()))` (line 200) is drawn
and discarded, because the builder always sets the id.
`resourcesAvailable` models
`resources and 'events' in resources`; when it fails the event is not sent
but the id is still returned.  Exceptions from the resource call or the
blob upload are caught (lines 223-224) and do not change the returned id,
so they are not modelled. -/
def create_event (type : String) (event_id : Option String)
    (session_id : Option String) (blob_threshold : Nat)
    (ambient : Option String) (parentCtx : Option String)
    (fresh1 fresh2 : String) (resourcesAvailable : Bool)
    (payload : JValue) : CreateEventResult :=
  match prepare_event_request type event_id session_id blob_threshold
      ambient parentCtx fresh1 payload with
  | none => { returned := fresh2, transmitted := none }
  | some r =>
    if resourcesAvailable then
      { returned := r.1.1.client_event_id, transmitted := some r.1 }
    else
      { returned := r.1.1.client_event_id, transmitted := none }

/-- Well-formedness of a UUID string in the canonical `8-4-4-4-12`
lowercase-hex hyphenated form produced by `str(uuid.uuid4())`. -/
def isHexDigitLower (c : Char) : Bool :=
  c.isDigit || ('a' ≤ c && c ≤ 'f')

/-- A well-formed UUID string. -/
def isWellFormedUuid (s : String) : Bool :=
  (s.toList.splitOn '-').map List.length == [8, 4, 4, 4, 12] &&
  (s.toList.splitOn '-').all (fun p => p.all isHexDigitLower)

end Lucidic.Event

namespace Lucidic.Examples

open Lucidic Lucidic.Queue

/-- A minimal event request: no parent, empty generic payload. -/
def sampleItem : QItem :=
  { client_event_id := some "e1", client_parent_event_id := none,
    defer_count := 0, retry_count := 0, type := some "generic",
    payload := .obj [] }

/-- A parentless event with id `"p"`. -/
def pItem : QItem :=
  { client_event_id := some "p", client_parent_event_id := none,
    defer_count := 0, retry_count := 0, type := some "generic",
    payload := .obj [] }

/-- A child of `pItem` in the same batch. -/
def cOfP : QItem :=
  { client_event_id := some "c", client_parent_event_id := some "p",
    defer_count := 0, retry_count := 0, type := some "generic",
    payload := .obj [] }

/-- An event whose parent id `"p"` is never enqueued. -/
def cItem : QItem :=
  { client_event_id := some "c", client_parent_event_id := some "p",
    defer_count := 0, retry_count := 0, type := some "generic",
    payload := .obj [] }

/-- A child of `cItem`, enqueued in a later batch. -/
def gItem : QItem :=
  { client_event_id := some "g", client_parent_event_id := some "c",
    defer_count := 0, retry_count := 0, type := some "generic",
    payload := .obj [] }

/-- Queue state after processing the batch `[cItem]` from the empty state. -/
def stAfterBatch1 : QState :=
  (processBatch 65536 { sentIds := [], deferred := [] } [cItem]).1

/-- A `generic` payload whose `details` value is a truthy integer, so that
`payload.get("details")[:200]` raises `TypeError` inside the preview code. -/
def badGenericPayload : JValue :=
  .obj [("details", .int 5)]

/-- A concrete configuration instance for witnesses. -/
def sampleConfig : Lucidic.Config.SDKConfig :=
  { api_key := .str "key", agent_id := .str "agent", auto_end := .bool true,
    production_monitoring := .bool false, blob_threshold := .int 65536,
    network := .null, error_handling := .null,
    telemetry := { providers := .arr [], verbose := .bool false },
    environment := .str "production", debug := .bool false }

end Lucidic.Examples

namespace Lucidic.Config

lemma getAttr_set_api_key (c : SDKConfig) (v : JValue) (k : String)
    (h : k ≠ "api_key") :
    getAttr { c with api_key := v } k = getAttr c k := by
  unfold getAttr
  rw [if_neg h, if_neg h]

lemma getAttr_set_agent_id (c : SDKConfig) (v : JValue) (k : String)
    (h : k ≠ "agent_id") :
    getAttr { c with agent_id := v } k = getAttr c k := by
  unfold getAttr
  rw [if_neg h, if_neg h]

lemma getAttr_set_auto_end (c : SDKConfig) (v : JValue) (k : String)
    (h : k ≠ "auto_end") :
    getAttr { c with auto_end := v } k = getAttr c k := by
  unfold getAttr
  rw [if_neg h, if_neg h]

lemma getAttr_set_production_monitoring (c : SDKConfig) (v : JValue) (k : String)
    (h : k ≠ "production_monitoring") :
    getAttr { c with production_monitoring := v } k = getAttr c k := by
  unfold getAttr
  rw [if_neg h, if_neg h]

lemma getAttr_set_blob_threshold (c : SDKConfig) (v : JValue) (k : String)
    (h : k ≠ "blob_threshold") :
    getAttr { c with blob_threshold := v } k = getAttr c k := by
  unfold getAttr
  rw [if_neg h, if_neg h]

lemma getAttr_set_network (c : SDKConfig) (v : JValue) (k : String)
    (h : k ≠ "network") :
    getAttr { c with network := v } k = getAttr c k := by
  unfold getAttr
  rw [if_neg h, if_neg h]

lemma getAttr_set_error_handling (c : SDKConfig) (v : JValue) (k : String)
    (h : k ≠ "error_handling") :
    getAttr { c with error_handling := v } k = getAttr c k := by
  unfold getAttr
  rw [if_neg h, if_neg h]

lemma getAttr_set_environment (c : SDKConfig) (v : JValue) (k : String)
    (h : k ≠ "environment") :
    getAttr { c with environment := v } k = getAttr c k := by
  unfold getAttr
  rw [if_neg h, if_neg h]

lemma getAttr_set_debug (c : SDKConfig) (v : JValue) (k : String)
    (h : k ≠ "debug") :
    getAttr { c with debug := v } k = getAttr c k := by
  unfold getAttr
  rw [if_neg h, if_neg h]

lemma getAttr_telemetry_set0 (c : SDKConfig) (t : TelemetryConfig) (key : String) :
    getAttr { c with telemetry := t } key = getAttr c key := by
  unfold getAttr
  split_ifs <;> rfl

set_option maxHeartbeats 2000000 in
lemma getAttr_setAttr_ne (c : SDKConfig) (k1 k2 : String) (v : JValue)
    (h : k1 ≠ k2) : getAttr (setAttr c k1 v) k2 = getAttr c k2 := by
  unfold setAttr
  split_ifs with h1 h2 h3 h4 h5 h6 h7 h8 h9 h10
  · exact getAttr_set_api_key c v k2 (fun hh => h (by rw [h1, hh]))
  · exact getAttr_set_agent_id c v k2 (fun hh => h (by rw [h2, hh]))
  · exact getAttr_set_auto_end c v k2 (fun hh => h (by rw [h3, hh]))
  · exact getAttr_set_production_monitoring c v k2 (fun hh => h (by rw [h4, hh]))
  · exact getAttr_set_blob_threshold c v k2 (fun hh => h (by rw [h5, hh]))
  · exact getAttr_set_network c v k2 (fun hh => h (by rw [h6, hh]))
  · exact getAttr_set_error_handling c v k2 (fun hh => h (by rw [h7, hh]))
  · exact getAttr_telemetry_set0 c _ k2
  · exact getAttr_set_environment c v k2 (fun hh => h (by rw [h9, hh]))
  · exact getAttr_set_debug c v k2 (fun hh => h (by rw [h10, hh]))
  · rfl

lemma getAttr_telemetry_set (c : SDKConfig) (t : TelemetryConfig) (key : String) :
    getAttr { c with telemetry := t } key = getAttr c key := by
  unfold getAttr
  split_ifs <;> rfl

lemma updateStep_null (c : SDKConfig) (kv : String × JValue)
    (h : kv.2.isNull = true) : updateStep c kv = c := by
  unfold updateStep
  simp [h]

lemma updateStep_unknown (c : SDKConfig) (kv : String × JValue)
    (h1 : kv.1 ∉ sdkConfigAttrs) (h2 : kv.1 ≠ "providers") :
    updateStep c kv = c := by
  unfold updateStep
  by_cases hn : kv.2.isNull
  · simp [hn]
  · simp only [hn, Bool.not_false, if_true]
    rw [if_neg h1, if_neg h2]

lemma getAttr_updateStep (c : SDKConfig) (kv : String × JValue) (key : String)
    (h : kv.1 = key → kv.2.isNull = true) :
    getAttr (updateStep c kv) key = getAttr c key := by
  unfold updateStep
  by_cases hn : kv.2.isNull
  · simp [hn]
  · simp only [hn, Bool.not_false, if_true]
    have hk : kv.1 ≠ key := fun hh => hn (h hh)
    split_ifs with hmem hprov
    · exact getAttr_setAttr_ne c kv.1 key kv.2 hk
    · exact getAttr_telemetry_set c _ key
    · rfl

set_option maxHeartbeats 2000000 in
lemma providers_updateStep (c : SDKConfig) (kv : String × JValue)
    (hp : kv.1 = "providers" → kv.2.isNull = true)
    (ht : kv.1 = "telemetry" → kv.2.isNull = true) :
    (updateStep c kv).telemetry.providers = c.telemetry.providers := by
  unfold updateStep
  by_cases hn : kv.2.isNull
  · simp [hn]
  · simp only [hn, Bool.not_false, if_true]
    have hkp : kv.1 ≠ "providers" := fun hh => hn (hp hh)
    have hkt : kv.1 ≠ "telemetry" := fun hh => hn (ht hh)
    rw [if_neg hkp]
    split_ifs with hmem
    · unfold setAttr
      split_ifs <;> rfl
    · rfl

/-- **C10.** `SDKConfig.update(**overrides)` changes an attribute only when
the override value is not `None` and the attribute exists on the config
(plus the special `providers` key routed to telemetry): any attribute whose
overrides are all `None` (or absent) keeps its value, `telemetry.providers`
keeps its value unless a non-`None` `providers` (or whole `telemetry`)
override appears, an all-`None` override set changes nothing at all, and
overrides made of unknown keys change nothing at all — so passing `None`
can never clear a value previously loaded from the environment. -/
theorem sdkconfig_update_frame (c : SDKConfig) (kwargs : List (String × JValue)) :
    (∀ key : String, (∀ v, (key, v) ∈ kwargs → v.isNull = true) →
        getAttr (update c kwargs) key = getAttr c key)
  ∧ ((∀ v, ("providers", v) ∈ kwargs → v.isNull = true) →
     (∀ v, ("telemetry", v) ∈ kwargs → v.isNull = true) →
        (update c kwargs).telemetry.providers = c.telemetry.providers)
  ∧ ((∀ kv, kv ∈ kwargs → kv.2.isNull = true) → update c kwargs = c)
  ∧ ((∀ kv, kv ∈ kwargs → kv.1 ∉ sdkConfigAttrs ∧ kv.1 ≠ "providers") →
        update c kwargs = c) := by
  refine ⟨?_, ?_, ?_, ?_⟩
  · intro key
    induction kwargs generalizing c with
    | nil => intro _; rfl
    | cons kv rest ih =>
      intro hall
      have hstep : getAttr (updateStep c kv) key = getAttr c key :=
        getAttr_updateStep c kv key (fun hk => hall kv.2 (by simp [← hk]))
      have := ih (updateStep c kv) (fun v hv => hall v (List.mem_cons_of_mem _ hv))
      simpa [update, List.foldl_cons, hstep] using this
  · induction kwargs generalizing c with
    | nil => intro _ _; rfl
    | cons kv rest ih =>
      intro hp ht
      have hstep : (updateStep c kv).telemetry.providers = c.telemetry.providers :=
        providers_updateStep c kv
          (fun hk => hp kv.2 (by simp [← hk]))
          (fun hk => ht kv.2 (by simp [← hk]))
      have := ih (updateStep c kv)
        (fun v hv => hp v (List.mem_cons_of_mem _ hv))
        (fun v hv => ht v (List.mem_cons_of_mem _ hv))
      simpa [update, List.foldl_cons, hstep] using this
  · induction kwargs generalizing c with
    | nil => intro _; rfl
    | cons kv rest ih =>
      intro hall
      have hstep : updateStep c kv = c :=
        updateStep_null c kv (hall kv (List.mem_cons_self _ _))
      have := ih c (fun v hv => hall v (List.mem_cons_of_mem _ hv))
      simpa [update, List.foldl_cons, hstep] using this
  · induction kwargs generalizing c with
    | nil => intro _; rfl
    | cons kv rest ih =>
      intro hall
      have hstep : updateStep c kv = c :=
        updateStep_unknown c kv (hall kv (List.mem_cons_self _ _)).1
          (hall kv (List.mem_cons_self _ _)).2
      have := ih c (fun v hv => hall v (List.mem_cons_of_mem _ hv))
      simpa [update, List.foldl_cons, hstep] using this

/-- Witness for `sdkconfig_update_frame`: overriding `api_key` with `None`
(next to an unknown key) leaves `api_key` untouched on a concrete config. -/
theorem sdkconfig_update_frame_witness :
    getAttr (update Lucidic.Examples.sampleConfig
        [("api_key", JValue.null), ("bogus", JValue.int 1)]) "api_key"
      = getAttr Lucidic.Examples.sampleConfig "api_key" := by
  refine (sdkconfig_update_frame Lucidic.Examples.sampleConfig
      [("api_key", JValue.null), ("bogus", JValue.int 1)]).1 "api_key" ?_
  intro v hv
  simp only [List.mem_cons, List.not_mem_nil, or_false, Prod.mk.injEq] at hv
  rcases hv with ⟨-, rfl⟩ | ⟨h, -⟩
  · rfl
  · exact absurd h (by decide)

end Lucidic.Config

namespace Lucidic.Ambient

/-- **C7.** Ambient session resolution priority: a truthy per-task value
always wins; on any thread other than the main thread only the thread-local
value is consulted, with no fallback at all (an unbound thread resolves to
no session even when a global session exists); only on the main thread are
the process-global session and then the lexical context variable consulted. -/
theorem get_session_id_priority (st : AmbientState) :
    (st.inAsyncTask = true → optStrTruthy st.taskSession = true →
        get_session_id st = st.taskSession)
  ∧ (optStrTruthy (if st.inAsyncTask then st.taskSession else none) = false →
      st.isMainThread = false →
        get_session_id st = st.threadSession)
  ∧ (optStrTruthy (if st.inAsyncTask then st.taskSession else none) = false →
      st.isMainThread = false → st.threadSession = none →
        get_session_id st = none)
  ∧ (optStrTruthy (if st.inAsyncTask then st.taskSession else none) = false →
      st.isMainThread = true →
        get_session_id st =
          if optStrTruthy st.globalSession then st.globalSession
          else st.contextSession) := by
  refine ⟨?_, ?_, ?_, ?_⟩
  · intro ha ht
    unfold get_session_id
    rw [if_pos ha, if_pos ht]
  · intro hf hm
    unfold get_session_id
    rw [hf, if_neg (by simp), hm]
    simp
  · intro hf hm hth
    unfold get_session_id
    rw [hf, if_neg (by simp), hm]
    simpa using hth
  · intro hf hm
    unfold get_session_id
    rw [hf, if_neg (by simp), hm]
    simp

/-- Witness for `get_session_id_priority`: a worker thread that never bound
a session resolves to no session even though the process-global session is
set. -/
theorem get_session_id_priority_witness :
    get_session_id
      { inAsyncTask := false, taskSession := none, isMainThread := false,
        threadSession := none, globalSession := some "global-session",
        contextSession := none } = none :=
  (get_session_id_priority _).2.2.1 (by decide) (by decide) (by decide)

end Lucidic.Ambient

namespace Lucidic.Queue

/-- **C6.** When the bounded queue is at (or beyond) capacity, `queue_event`
drops the incoming item: the items already in the queue are returned
unchanged (so they are still available for the worker to transmit), the
call returns normally with the drop recorded only by a `DEBUG`-guarded
`logger.debug` call, and no exception escapes (`queue.Full` is caught). -/
theorem queue_event_full_drops (maxSize : Nat) (q : List QItem) (item : QItem)
    (h : maxSize ≤ q.length) :
    queue_event maxSize q item = (q, .droppedDebug) := by
  unfold queue_event
  rw [if_neg (by omega)]

/-- Witness for `queue_event_full_drops`: a queue of capacity 1 holding one
item drops the next enqueue and keeps its contents. -/
theorem queue_event_full_drops_witness :
    queue_event 1 [Lucidic.Examples.sampleItem] Lucidic.Examples.sampleItem
      = ([Lucidic.Examples.sampleItem], .droppedDebug) :=
  queue_event_full_drops 1 [Lucidic.Examples.sampleItem]
    Lucidic.Examples.sampleItem (by simp)

end Lucidic.Queue

namespace Lucidic.Http

/-- **C8 counterexample.** A `304 Not Modified` response is not a 2xx
status, yet `_make_request` raises nothing for it: `raise_for_status` only
raises for statuses in 400..599, so the parsed JSON is returned.  This
refutes the claim that every non-2xx status raises an operational error. -/
theorem make_request_304_returns_json :
    make_request (fun _ => "304 error") (.response 304 "Not Modified" (.obj []))
      = .ok (.obj []) := rfl

/-- **C8 (amended).** Status mapping of `_make_request`: 401/403 raise the
authentication error, 402 raises the insufficient-credits (quota) error,
any other status in 400..599 raises an operational error whose message
carries the response body text when the body is non-empty and the
`HTTPError` string (`str(e)`, here the oracle `f status`) when the body is
empty, statuses outside 400..599 (all 2xx, but also 1xx/3xx) return the
parsed JSON, and a network-level failure raises the unreachable-backend
error. -/
theorem make_request_status_mapping (f : Nat → String) (status : Nat)
    (text : String) (json : JValue) :
    (status = 401 → make_request f (.response status text json)
        = .error (.apiKeyVerificationError "Invalid API key: 401 Unauthorized"))
  ∧ (status = 402 → make_request f (.response status text json)
        = .error (.invalidOperationError "Invalid operation: 402 Insufficient Credits"))
  ∧ (status = 403 → make_request f (.response status text json)
        = .error (.apiKeyVerificationError "Invalid API key: 403 Forbidden"))
  ∧ (400 ≤ status → status < 600 → status ≠ 401 → status ≠ 402 → status ≠ 403 →
      make_request f (.response status text json)
        = .error (.invalidOperationError
            ("Request to Lucidic AI Backend failed: "
              ++ (if text ≠ "" then text else f status))))
  ∧ (¬(400 ≤ status ∧ status < 600) →
      make_request f (.response status text json) = .ok json)
  ∧ (make_request f .networkError
      = .error (.invalidOperationError
          "Cannot reach backend. Check your internet connection.")) := by
  refine ⟨?_, ?_, ?_, ?_, ?_, rfl⟩
  · intro h; subst h; rfl
  · intro h; subst h; rfl
  · intro h; subst h; rfl
  · intro h1 h2 h3 h4 h5
    simp only [make_request]
    rw [if_neg h3, if_neg h4, if_neg h5, if_pos ⟨h1, h2⟩]
  · intro hrange
    simp only [make_request]
    rw [if_neg (by omega), if_neg (by omega), if_neg (by omega), if_neg hrange]

/-- Witness for `make_request_status_mapping`: a 404 with body `"boom"`
raises the operational error carrying the body, and a 500 with an empty
body raises the operational error carrying the `HTTPError` string. -/
theorem make_request_status_mapping_witness :
    make_request (fun s => toString s ++ " Server Error")
        (.response 404 "boom" JValue.null)
      = .error (.invalidOperationError
          "Request to Lucidic AI Backend failed: boom")
  ∧ make_request (fun s => toString s ++ " Server Error")
        (.response 500 "" JValue.null)
      = .error (.invalidOperationError
          "Request to Lucidic AI Backend failed: 500 Server Error") :=
  ⟨(make_request_status_mapping (fun s => toString s ++ " Server Error")
      404 "boom" JValue.null).2.2.2.1
    (by decide) (by decide) (by decide) (by decide) (by decide),
   (make_request_status_mapping (fun s => toString s ++ " Server Error")
      500 "" JValue.null).2.2.2.1
    (by decide) (by decide) (by decide) (by decide) (by decide)⟩

end Lucidic.Http

namespace Lucidic.Queue

open Lucidic.Preview

lemma buildSendBody_offload {threshold : Nat} {item : QItem}
    (h : jsonByteSize item.payload > threshold) :
    buildSendBody threshold item
      = ({ event := { item with payload := toPreview item.type item.payload },
           needs_blob := true }, true) := by
  unfold buildSendBody
  rw [if_pos h]

lemma buildSendBody_inline {threshold : Nat} {item : QItem}
    (h : ¬ jsonByteSize item.payload > threshold) :
    buildSendBody threshold item = ({ event := item, needs_blob := false }, false) := by
  unfold buildSendBody
  rw [if_neg h]

/-- **C2.** For every dispatched event, blob offload happens exactly when
the compact UTF-8 JSON serialization of the payload is strictly larger than
the blob threshold: strictly larger means `needs_blob = true` with the
payload replaced by the type-specific preview and a blob upload to follow;
equal or smaller means `needs_blob = false`, the request POSTed unchanged,
and no blob upload.  Every `posted` outcome of the dispatch step carries
exactly this body. -/
theorem blob_offload_strict (threshold : Nat) (sentIds : List String) (item : QItem) :
    ((buildSendBody threshold item).1.needs_blob
        = decide (jsonByteSize item.payload > threshold))
  ∧ ((buildSendBody threshold item).2 = (buildSendBody threshold item).1.needs_blob)
  ∧ (jsonByteSize item.payload > threshold →
        (buildSendBody threshold item).1.event.payload
            = toPreview item.type item.payload
      ∧ (buildSendBody threshold item).1.needs_blob = true)
  ∧ (jsonByteSize item.payload ≤ threshold →
        (buildSendBody threshold item).1.event = item
      ∧ (buildSendBody threshold item).1.needs_blob = false
      ∧ (buildSendBody threshold item).2 = false)
  ∧ (∀ body blobUpload,
        sendEventStep threshold sentIds item = .posted body blobUpload →
          body = (buildSendBody threshold item).1
        ∧ blobUpload = (buildSendBody threshold item).2) := by
  refine ⟨?_, ?_, ?_, ?_, ?_⟩
  · by_cases h : jsonByteSize item.payload > threshold
    · rw [buildSendBody_offload h]; simp [h]
    · rw [buildSendBody_inline h]; simp [h]
  · by_cases h : jsonByteSize item.payload > threshold
    · rw [buildSendBody_offload h]
    · rw [buildSendBody_inline h]
  · intro h
    rw [buildSendBody_offload h]
    exact ⟨rfl, rfl⟩
  · intro h
    rw [buildSendBody_inline (by omega)]
    exact ⟨rfl, rfl, rfl⟩
  · intro body blobUpload hstep
    unfold sendEventStep at hstep
    by_cases hc : (parentPending sentIds item && decide (item.defer_count < 5)) = true
    · rw [if_pos hc] at hstep
      exact absurd hstep (by simp)
    · rw [if_neg hc] at hstep
      have hstep' : SendAction.posted (buildSendBody threshold item).1
          (buildSendBody threshold item).2 = .posted body blobUpload := hstep
      injection hstep' with h1 h2
      exact ⟨h1.symm, h2.symm⟩

/-- Witness for `blob_offload_strict`: an empty generic payload (2 bytes)
stays inline under the default 64 KiB threshold. -/
theorem blob_offload_strict_witness :
    (buildSendBody 65536 Lucidic.Examples.sampleItem).1.event
        = Lucidic.Examples.sampleItem
  ∧ (buildSendBody 65536 Lucidic.Examples.sampleItem).1.needs_blob = false
  ∧ (buildSendBody 65536 Lucidic.Examples.sampleItem).2 = false :=
  (blob_offload_strict 65536 [] Lucidic.Examples.sampleItem).2.2.2.1 (by decide)

/-- **C3.** A queue item with a non-empty parent id not yet in the delivered
set: while `defer_count < 5` the dispatch step increments `defer_count` by
exactly one, appends the incremented item to the deferred list, and reports
success with no HTTP request (the `deferredSuccess` outcome); once
`defer_count` reaches 5 the item is POSTed anyway, as an orphan. -/
theorem defer_on_pending_parent (threshold : Nat) (sentIds : List String)
    (deferredList : List QItem) (item : QItem) (p : String)
    (hp : item.client_parent_event_id = some p) (hne : p ≠ "")
    (hnot : sentIds.contains p = false) :
    (item.defer_count < 5 →
        sendEventStep threshold sentIds item
          = .deferredSuccess { item with defer_count := item.defer_count + 1 }
      ∧ (processEvent threshold { sentIds := sentIds, deferred := deferredList } item).1.deferred
          = deferredList ++ [{ item with defer_count := item.defer_count + 1 }])
  ∧ (5 ≤ item.defer_count →
        sendEventStep threshold sentIds item
          = .posted (buildSendBody threshold item).1 (buildSendBody threshold item).2) := by
  have hpend : parentPending sentIds item = true := by
    unfold parentPending
    rw [hp]
    show (p != "" && !sentIds.contains p) = true
    rw [hnot]
    simp [hne]
  constructor
  · intro hlt
    have hcond : (parentPending sentIds item && decide (item.defer_count < 5)) = true := by
      simp [hpend, hlt]
    have hstep : sendEventStep threshold sentIds item
        = .deferredSuccess { item with defer_count := item.defer_count + 1 } := by
      unfold sendEventStep
      rw [if_pos hcond]
    refine ⟨hstep, ?_⟩
    unfold processEvent
    rw [hstep]
  · intro hge
    have hcond : (parentPending sentIds item && decide (item.defer_count < 5)) = false := by
      simp [hpend]
      omega
    unfold sendEventStep
    rw [if_neg (by simp [hcond])]

/-- Witness for `defer_on_pending_parent`: the orphan event `cItem`
(parent `"p"` not delivered, `defer_count = 0`) is deferred with its
counter at 1. -/
theorem defer_on_pending_parent_witness :
    sendEventStep 65536 [] Lucidic.Examples.cItem
      = .deferredSuccess { Lucidic.Examples.cItem with defer_count := 1 } :=
  ((defer_on_pending_parent 65536 [] [] Lucidic.Examples.cItem "p"
      rfl (by decide) rfl).1 (by decide)).1

end Lucidic.Queue

namespace Lucidic.Preview

/-- **C9 counterexample.** For `_create_preview` (src/lucidicai/sdk/event.py)
the claim fails: with type `"generic"` and payload `{"details": 5}` the
expression `payload.get("details")[:200]` raises `TypeError` (5 is truthy
but not subscriptable), and the caught exception produces
`{"details": "preview_error"}` — not `{"details": "preview_unavailable"}`. -/
theorem create_preview_error_not_unavailable :
    previewBody "generic" Lucidic.Examples.badGenericPayload = .error .exc
  ∧ createPreview (some "generic") Lucidic.Examples.badGenericPayload
      = .obj [("details", .str "preview_error")]
  ∧ JValue.obj [("details", .str "preview_error")]
      ≠ JValue.obj [("details", .str "preview_unavailable")] := by
  refine ⟨rfl, rfl, ?_⟩
  intro h
  simp only [JValue.obj.injEq, List.cons.injEq, Prod.mk.injEq, JValue.str.injEq,
    and_true, true_and] at h
  exact absurd h (by decide)

/-- **C9 (amended).** Both preview builders are total functions of the event
type and payload and propagate no exception; when the type-specific
construction raises internally, the queue's `_to_preview` returns exactly
`{"details": "preview_unavailable"}` while the SDK's `_create_preview`
returns exactly `{"details": "preview_error"}`; an unrecognized event type
yields `{"details": "preview_unavailable"}` from both; and when the
construction succeeds both return its result. -/
theorem preview_fallbacks (eventType : Option String) (payload : JValue) :
    (previewBody (pyLower (pyOrStr eventType "generic")) payload = .error .exc →
        toPreview eventType payload = .obj [("details", .str "preview_unavailable")]
      ∧ createPreview eventType payload = .obj [("details", .str "preview_error")])
  ∧ (previewBody (pyLower (pyOrStr eventType "generic")) payload = .ok none →
        toPreview eventType payload = .obj [("details", .str "preview_unavailable")]
      ∧ createPreview eventType payload
          = .obj [("details", .str "preview_unavailable")])
  ∧ (∀ p, previewBody (pyLower (pyOrStr eventType "generic")) payload = .ok (some p) →
        toPreview eventType payload = p ∧ createPreview eventType payload = p) := by
  refine ⟨?_, ?_, ?_⟩
  · intro h
    constructor
    · unfold toPreview
      rw [h]
    · unfold createPreview
      rw [h]
  · intro h
    constructor
    · unfold toPreview
      rw [h]
    · unfold createPreview
      rw [h]
  · intro p h
    constructor
    · unfold toPreview
      rw [h]
    · unfold createPreview
      rw [h]

/-- Witness for `preview_fallbacks`: at the failing `{"details": 5}` payload
the two fallbacks differ as stated. -/
theorem preview_fallbacks_witness :
    toPreview (some "generic") Lucidic.Examples.badGenericPayload
        = .obj [("details", .str "preview_unavailable")]
  ∧ createPreview (some "generic") Lucidic.Examples.badGenericPayload
        = .obj [("details", .str "preview_error")] :=
  (preview_fallbacks (some "generic") Lucidic.Examples.badGenericPayload).1 rfl

end Lucidic.Preview

namespace Lucidic.Event

open Lucidic

lemma prepSendBody_client_event_id (type : String) (event_id : Option String)
    (session_id ambient parentCtx : Option String) (blob_threshold : Nat)
    (freshUuid : String) (payload : JValue) :
    (prepSendBody type event_id session_id ambient parentCtx blob_threshold
        freshUuid payload).client_event_id = chosenEventId event_id freshUuid := by
  unfold prepSendBody
  by_cases h : prepNeedsBlob blob_threshold payload = true
  · rw [if_pos h]
    rfl
  · rw [if_neg h]
    rfl

lemma prepare_some (type : String) (event_id session_id : Option String)
    (blob_threshold : Nat) (ambient parentCtx : Option String)
    (freshUuid : String) (payload : JValue)
    (h : optStrTruthy (resolvedSession session_id ambient) = true) :
    prepare_event_request type event_id session_id blob_threshold ambient
        parentCtx freshUuid payload
      = some ((prepSendBody type event_id session_id ambient parentCtx
                 blob_threshold freshUuid payload,
               prepNeedsBlob blob_threshold payload),
              prepNeedsBlob blob_threshold payload,
              if prepNeedsBlob blob_threshold payload then some payload
              else none) := by
  unfold prepare_event_request
  rw [if_pos h]

lemma prepare_none (type : String) (event_id session_id : Option String)
    (blob_threshold : Nat) (ambient parentCtx : Option String)
    (freshUuid : String) (payload : JValue)
    (h : optStrTruthy (resolvedSession session_id ambient) = false) :
    prepare_event_request type event_id session_id blob_threshold ambient
        parentCtx freshUuid payload = none := by
  unfold prepare_event_request
  rw [if_neg (by simp [h])]

lemma create_event_of_prep_some (type : String) (event_id session_id : Option String)
    (blob_threshold : Nat) (ambient parentCtx : Option String)
    (fresh1 fresh2 : String) (resourcesAvailable : Bool) (payload : JValue)
    (r : (BuiltEvent × Bool) × Bool × Option JValue)
    (h : prepare_event_request type event_id session_id blob_threshold ambient
        parentCtx fresh1 payload = some r) :
    create_event type event_id session_id blob_threshold ambient parentCtx
        fresh1 fresh2 resourcesAvailable payload
      = if resourcesAvailable then
          { returned := r.1.1.client_event_id, transmitted := some r.1 }
        else
          { returned := r.1.1.client_event_id, transmitted := none } := by
  unfold create_event
  rw [h]

lemma create_event_of_prep_none (type : String) (event_id session_id : Option String)
    (blob_threshold : Nat) (ambient parentCtx : Option String)
    (fresh1 fresh2 : String) (resourcesAvailable : Bool) (payload : JValue)
    (h : prepare_event_request type event_id session_id blob_threshold ambient
        parentCtx fresh1 payload = none) :
    create_event type event_id session_id blob_threshold ambient parentCtx
        fresh1 fresh2 resourcesAvailable payload
      = { returned := fresh2, transmitted := none } := by
  unfold create_event
  rw [h]

/-- **C5 counterexample.** `create_event` performs no validation of a
caller-supplied id: with a session resolved, the explicit id
`"not-a-uuid"` is returned (and handed to the events resource) verbatim, so
the returned string is not a well-formed UUID — refuting the claim that
every `create_event` call returns a well-formed UUID. -/
theorem create_event_non_uuid_passthrough :
    (create_event "generic" (some "not-a-uuid") (some "sess") 65536 none none
        "11111111-2222-4333-8444-555555555555"
        "66666666-7777-4888-9999-aaaaaaaaaaaa" true (.obj [])).returned
      = "not-a-uuid"
  ∧ isWellFormedUuid "not-a-uuid" = false := by
  exact ⟨rfl, by decide⟩

/-- **C5 (amended).** The id returned by `create_event` always equals the
`client_event_id` of any body handed to the events resource; a truthy
caller-supplied `event_id` is returned (and transmitted) verbatim with no
validation, so only SDK-generated ids are guaranteed to be well-formed
UUIDs; an absent (or empty) `event_id` yields the freshly generated UUID;
and when no session resolves, a freshly generated UUID is returned with no
transmission at all. -/
theorem create_event_id_contract (type : String)
    (event_id session_id : Option String) (blob_threshold : Nat)
    (ambient parentCtx : Option String) (fresh1 fresh2 : String)
    (resourcesAvailable : Bool) (payload : JValue)
    (hw1 : isWellFormedUuid fresh1 = true)
    (hw2 : isWellFormedUuid fresh2 = true) :
    (optStrTruthy (resolvedSession session_id ambient) = false →
        create_event type event_id session_id blob_threshold ambient parentCtx
            fresh1 fresh2 resourcesAvailable payload
          = { returned := fresh2, transmitted := none }
      ∧ isWellFormedUuid (create_event type event_id session_id blob_threshold
            ambient parentCtx fresh1 fresh2 resourcesAvailable payload).returned
          = true)
  ∧ (∀ b nb,
      (create_event type event_id session_id blob_threshold ambient parentCtx
          fresh1 fresh2 resourcesAvailable payload).transmitted = some (b, nb) →
        b.client_event_id
          = (create_event type event_id session_id blob_threshold ambient
              parentCtx fresh1 fresh2 resourcesAvailable payload).returned)
  ∧ (optStrTruthy (resolvedSession session_id ambient) = true →
      ∀ e, event_id = some e → e ≠ "" →
        (create_event type event_id session_id blob_threshold ambient parentCtx
            fresh1 fresh2 resourcesAvailable payload).returned = e)
  ∧ (optStrTruthy (resolvedSession session_id ambient) = true →
      event_id = none ∨ event_id = some "" →
        (create_event type event_id session_id blob_threshold ambient parentCtx
            fresh1 fresh2 resourcesAvailable payload).returned = fresh1
      ∧ isWellFormedUuid (create_event type event_id session_id blob_threshold
            ambient parentCtx fresh1 fresh2 resourcesAvailable payload).returned
          = true) := by
  by_cases hsid : optStrTruthy (resolvedSession session_id ambient) = true
  · have hce := create_event_of_prep_some type event_id session_id blob_threshold
      ambient parentCtx fresh1 fresh2 resourcesAvailable payload _
      (prepare_some type event_id session_id blob_threshold ambient parentCtx
        fresh1 payload hsid)
    have hret : (create_event type event_id session_id blob_threshold ambient
        parentCtx fresh1 fresh2 resourcesAvailable payload).returned
        = chosenEventId event_id fresh1 := by
      rw [hce]
      by_cases hra : resourcesAvailable = true
      · rw [if_pos hra]
        exact prepSendBody_client_event_id _ _ _ _ _ _ _ _
      · rw [if_neg hra]
        exact prepSendBody_client_event_id _ _ _ _ _ _ _ _
    refine ⟨fun hfalse => absurd hsid (by simp [hfalse]), ?_, ?_, ?_⟩
    · intro b nb htr
      rw [hce] at htr
      by_cases hra : resourcesAvailable = true
      · rw [if_pos hra] at htr
        simp only [Option.some.injEq, Prod.mk.injEq] at htr
        rw [hret, ← htr.1, prepSendBody_client_event_id]
      · rw [if_neg hra] at htr
        exact absurd htr (by simp)
    · intro _ e he hne
      rw [hret, he]
      show (if e ≠ "" then e else fresh1) = e
      rw [if_pos hne]
    · intro _ hid
      have : chosenEventId event_id fresh1 = fresh1 := by
        rcases hid with h | h <;> subst h <;> simp [chosenEventId]
      rw [hret, this]
      exact ⟨rfl, hw1⟩
  · have hfalse : optStrTruthy (resolvedSession session_id ambient) = false := by
      simpa using hsid
    have hce := create_event_of_prep_none type event_id session_id blob_threshold
      ambient parentCtx fresh1 fresh2 resourcesAvailable payload
      (prepare_none type event_id session_id blob_threshold ambient parentCtx
        fresh1 payload hfalse)
    refine ⟨fun _ => ⟨hce, by rw [hce]; exact hw2⟩, ?_, ?_, ?_⟩
    · intro b nb htr
      rw [hce] at htr
      exact absurd htr (by simp)
    · intro htrue
      exact absurd htrue (by simp [hfalse])
    · intro htrue
      exact absurd htrue (by simp [hfalse])

/-- Witness for `create_event_id_contract`: with no resolvable session the
call returns the fresh UUID drawn on the dummy path and transmits nothing. -/
theorem create_event_id_contract_witness :
    create_event "generic" none none 65536 none none
        "11111111-2222-4333-8444-555555555555"
        "66666666-7777-4888-9999-aaaaaaaaaaaa" true (.obj [])
      = { returned := "66666666-7777-4888-9999-aaaaaaaaaaaa",
          transmitted := none } :=
  ((create_event_id_contract "generic" none none 65536 none none
      "11111111-2222-4333-8444-555555555555"
      "66666666-7777-4888-9999-aaaaaaaaaaaa" true (.obj [])
      (by decide) (by decide)).1 (by decide)).1

end Lucidic.Event

namespace Lucidic.Queue

lemma groupPass_perm (l : List QItem) : ∀ processed : List String,
    List.Perm ((groupPass processed l).1 ++ (groupPass processed l).2.1) l := by
  induction l with
  | nil => intro processed; simp [groupPass]
  | cons e rest ih =>
    intro processed
    by_cases h : eligible processed e = true
    · simp only [groupPass, if_pos h]
      exact (ih (addId processed e.client_event_id)).cons e
    · simp only [groupPass, if_neg h]
      exact List.perm_middle.trans ((ih processed).cons e)

lemma groupPass_empty_group (l : List QItem) : ∀ processed : List String,
    (groupPass processed l).1 = [] → (groupPass processed l).2.1 = l := by
  induction l with
  | nil => intro processed _; rfl
  | cons e rest ih =>
    intro processed hempty
    by_cases h : eligible processed e = true
    · simp only [groupPass, if_pos h] at hempty
      exact absurd hempty (List.cons_ne_nil _ _)
    · simp only [groupPass, if_neg h] at hempty ⊢
      rw [ih processed hempty]

lemma mem_addId_of_mem (processed : List String) (id : Option String)
    (p : String) (hmem : p ∈ processed) : p ∈ addId processed id := by
  cases id with
  | none => simpa [addId] using hmem
  | some i =>
    simp only [addId]
    split_ifs
    · exact List.mem_append_left _ hmem
    · exact hmem

lemma eligible_addId (processed : List String) (id : Option String) (e : QItem)
    (h : eligible processed e = true) : eligible (addId processed id) e = true := by
  unfold eligible at h ⊢
  cases hpar : e.client_parent_event_id with
  | none => rfl
  | some p =>
    rw [hpar] at h
    rcases Bool.or_eq_true _ _ |>.mp h with h1 | h2
    · simp [h1]
    · have hmem : p ∈ processed := by simpa using h2
      simp [mem_addId_of_mem processed id p hmem]

lemma groupPass_mem_first (l : List QItem) : ∀ (processed : List String) (e : QItem),
    e ∈ l → eligible processed e = true → e ∈ (groupPass processed l).1 := by
  induction l with
  | nil => intro _ _ hmem _; exact absurd hmem (List.not_mem_nil _)
  | cons x rest ih =>
    intro processed e hmem hel
    rcases List.mem_cons.mp hmem with heq | hrest
    · subst heq
      simp only [groupPass, if_pos hel]
      exact List.mem_cons_self _ _
    · by_cases hx : eligible processed x = true
      · simp only [groupPass, if_pos hx]
        exact List.mem_cons_of_mem _
          (ih (addId processed x.client_event_id) e hrest
            (eligible_addId processed x.client_event_id e hel))
      · simp only [groupPass, if_neg hx]
        exact ih processed e hrest hel

lemma groupLoop_nil_remaining (fuel : Nat) (processed : List String)
    (groups : List (List QItem)) : groupLoop fuel processed [] groups = groups := by
  cases fuel <;> rfl

lemma groupLoop_cons (fuel : Nat) (processed : List String) (e : QItem)
    (rest : List QItem) (groups : List (List QItem)) :
    groupLoop (fuel + 1) processed (e :: rest) groups
      = if (groupPass processed (e :: rest)).1.isEmpty then
          groups ++ [e :: rest]
        else
          groupLoop fuel (groupPass processed (e :: rest)).2.2
            (groupPass processed (e :: rest)).2.1
            (groups ++ [(groupPass processed (e :: rest)).1]) := rfl

lemma groupLoop_acc (fuel : Nat) : ∀ (processed : List String)
    (remaining : List QItem) (groups : List (List QItem)),
    groupLoop fuel processed remaining groups
      = groups ++ groupLoop fuel processed remaining [] := by
  induction fuel with
  | zero =>
    intro processed remaining groups
    cases remaining <;> simp [groupLoop]
  | succ fuel ih =>
    intro processed remaining groups
    cases remaining with
    | nil => simp [groupLoop_nil_remaining]
    | cons e rest =>
      rw [groupLoop_cons, groupLoop_cons]
      by_cases hemp : (groupPass processed (e :: rest)).1.isEmpty = true
      · rw [if_pos hemp, if_pos hemp]
        simp
      · rw [if_neg hemp, if_neg hemp]
        rw [ih _ _ (groups ++ [(groupPass processed (e :: rest)).1]),
            ih _ _ ([] ++ [(groupPass processed (e :: rest)).1])]
        simp [List.append_assoc]

lemma groupLoop_flatten_perm (fuel : Nat) : ∀ (processed : List String)
    (remaining : List QItem) (groups : List (List QItem)),
    remaining.length < fuel →
    List.Perm (groupLoop fuel processed remaining groups).flatten
      (groups.flatten ++ remaining) := by
  induction fuel with
  | zero => intro _ remaining _ h; exact absurd h (Nat.not_lt_zero _)
  | succ fuel ih =>
    intro processed remaining groups h
    cases remaining with
    | nil => simp [groupLoop_nil_remaining]
    | cons e rest =>
      rw [groupLoop_cons]
      have hperm := groupPass_perm (e :: rest) processed
      by_cases hemp : (groupPass processed (e :: rest)).1.isEmpty = true
      · rw [if_pos hemp]
        simp
      · rw [if_neg hemp]
        have hg : (groupPass processed (e :: rest)).1 ≠ [] := by
          simpa using hemp
        have hlen : (groupPass processed (e :: rest)).1.length
            + (groupPass processed (e :: rest)).2.1.length
            = (e :: rest).length := by
          simpa using hperm.length_eq
        have hglen : 1 ≤ (groupPass processed (e :: rest)).1.length :=
          Nat.one_le_iff_ne_zero.mpr (by simpa using hg)
        have hrec : (groupPass processed (e :: rest)).2.1.length < fuel := by
          simp only [List.length_cons] at hlen h
          omega
        have hih := ih (groupPass processed (e :: rest)).2.2
          (groupPass processed (e :: rest)).2.1
          (groups ++ [(groupPass processed (e :: rest)).1]) hrec
        refine hih.trans ?_
        rw [List.flatten_append]
        simp only [List.flatten_cons, List.flatten_nil, List.append_nil]
        rw [List.append_assoc]
        exact hperm.append_left groups.flatten

/-- **C4 counterexample.** With `S = ∅` and the batch `[p, c]` where `c`'s
parent is `p`, the first group is `[p, c]`: the pass extends
`processed_ids` with `p`'s id while it runs, so `c` joins the first group
even though its parent is present in the batch and not in `S` — refuting
the claim that the first group consists exactly of the events whose parent
is absent or already in `S`. -/
theorem group_first_pass_counterexample :
    groupByDependencies [] [Lucidic.Examples.pItem, Lucidic.Examples.cOfP]
      = [[Lucidic.Examples.pItem, Lucidic.Examples.cOfP]]
  ∧ eligible [] Lucidic.Examples.cOfP = false
  ∧ Lucidic.Examples.cOfP.client_parent_event_id = some "p" := ⟨rfl, rfl, rfl⟩

/-- **C4 (amended).** `_group_by_dependencies` always terminates with the
concatenation of its groups a permutation of the batch (no event dropped or
duplicated); every event whose parent is absent or already in `S` is in the
first group, but the first group is the *incremental* first pass (it may
also contain events whose parent occurs earlier in the same batch, as the
counterexample shows); and when the first pass finds no eligible event
while events remain, all remaining events are emitted as one final group. -/
theorem groupByDependencies_partition (S : List String) (B : List QItem) :
    List.Perm (groupByDependencies S B).flatten B
  ∧ (∀ e, e ∈ B → eligible S e = true → e ∈ (groupPass S B).1)
  ∧ (B ≠ [] → (groupPass S B).1 ≠ [] →
        (groupByDependencies S B).head? = some (groupPass S B).1)
  ∧ ((groupPass S B).1 = [] → B ≠ [] → groupByDependencies S B = [B]) := by
  refine ⟨?_, ?_, ?_, ?_⟩
  · unfold groupByDependencies
    cases B with
    | nil => simp [groupLoop_nil_remaining]
    | cons b bs =>
      have hfuel : (b :: bs).length < (if (b :: bs).isEmpty then 1
          else (b :: bs).length * 2) := by
        rw [if_neg (by simp)]
        simp only [List.length_cons]
        omega
      simpa using groupLoop_flatten_perm _ S (b :: bs) [] hfuel
  · intro e hmem hel
    exact groupPass_mem_first B S e hmem hel
  · intro hB hg
    unfold groupByDependencies
    cases B with
    | nil => exact absurd rfl hB
    | cons b bs =>
      have h2 : (if (b :: bs).isEmpty then 1 else (b :: bs).length * 2)
          = (2 * bs.length + 1) + 1 := by
        rw [if_neg (by simp)]
        simp only [List.length_cons]
        omega
      rw [h2, groupLoop_cons, if_neg (by simpa using hg)]
      rw [groupLoop_acc]
      rfl
  · intro hempty hB
    unfold groupByDependencies
    cases B with
    | nil => exact absurd rfl hB
    | cons b bs =>
      have h2 : (if (b :: bs).isEmpty then 1 else (b :: bs).length * 2)
          = (2 * bs.length + 1) + 1 := by
        rw [if_neg (by simp)]
        simp only [List.length_cons]
        omega
      rw [h2, groupLoop_cons, if_pos (by simpa using hempty)]
      rfl

/-- Witness for `groupByDependencies_partition`: in the counterexample
batch the parentless event `p` is (as always) in the first group. -/
theorem groupByDependencies_partition_witness :
    Lucidic.Examples.pItem
      ∈ (groupPass [] [Lucidic.Examples.pItem, Lucidic.Examples.cOfP]).1 :=
  (groupByDependencies_partition [] [Lucidic.Examples.pItem,
      Lucidic.Examples.cOfP]).2.1 Lucidic.Examples.pItem
    (List.mem_cons_self _ _) rfl

end Lucidic.Queue

namespace Lucidic.Queue

lemma parentPending_congr (ids : List String) (x e : QItem)
    (h : x.client_parent_event_id = e.client_parent_event_id) :
    parentPending ids x = parentPending ids e := by
  unfold parentPending
  rw [h]

lemma buildSendBody_event_fields (threshold : Nat) (e : QItem) :
    (buildSendBody threshold e).1.event.client_event_id = e.client_event_id
  ∧ (buildSendBody threshold e).1.event.client_parent_event_id
      = e.client_parent_event_id
  ∧ (buildSendBody threshold e).1.event.defer_count = e.defer_count := by
  unfold buildSendBody
  by_cases h : jsonByteSize e.payload > threshold
  · rw [if_pos h]
    exact ⟨rfl, rfl, rfl⟩
  · rw [if_neg h]
    exact ⟨rfl, rfl, rfl⟩

lemma sendEventStep_defer (threshold : Nat) (ids : List String) (e : QItem)
    (hc : (parentPending ids e && decide (e.defer_count < 5)) = true) :
    sendEventStep threshold ids e
      = .deferredSuccess { e with defer_count := e.defer_count + 1 } := by
  unfold sendEventStep
  rw [if_pos hc]

lemma sendEventStep_post (threshold : Nat) (ids : List String) (e : QItem)
    (hc : ¬((parentPending ids e && decide (e.defer_count < 5)) = true)) :
    sendEventStep threshold ids e
      = .posted (buildSendBody threshold e).1 (buildSendBody threshold e).2 := by
  unfold sendEventStep
  rw [if_neg hc]

lemma processEvent_sentIds (threshold : Nat) (st : QState) (e : QItem) :
    (processEvent threshold st e).1.sentIds = addId st.sentIds e.client_event_id := by
  unfold processEvent
  by_cases hc : (parentPending st.sentIds e && decide (e.defer_count < 5)) = true
  · rw [sendEventStep_defer threshold st.sentIds e hc]
  · rw [sendEventStep_post threshold st.sentIds e hc]

lemma processEvent_gate (threshold : Nat) (st : QState) (e : QItem) :
    traceRespectsGate st.sentIds [(processEvent threshold st e).2] = true := by
  unfold processEvent
  by_cases hc : (parentPending st.sentIds e && decide (e.defer_count < 5)) = true
  · rw [sendEventStep_defer threshold st.sentIds e hc]
    rfl
  · rw [sendEventStep_post threshold st.sentIds e hc]
    have hfields := buildSendBody_event_fields threshold e
    have hgate : postGateOk st.sentIds (buildSendBody threshold e).1.event = true := by
      unfold postGateOk
      rw [parentPending_congr st.sentIds _ e hfields.2.1, hfields.2.2]
      by_cases hp : parentPending st.sentIds e = true
      · have hdec : decide (e.defer_count < 5) = false := by
          cases hdec : decide (e.defer_count < 5) with
          | true => exact absurd (by rw [hp, hdec]; rfl) hc
          | false => rfl
        have hge : 5 ≤ e.defer_count := by
          have := of_decide_eq_false hdec
          omega
        simp [hge]
      · simp [hp]
    show (postGateOk st.sentIds (buildSendBody threshold e).1.event &&
      traceRespectsGate (addId st.sentIds
        (buildSendBody threshold e).1.event.client_event_id) []) = true
    rw [hgate]
    rfl

lemma processEvent_replay (threshold : Nat) (st : QState) (e : QItem) :
    replaySent st.sentIds [(processEvent threshold st e).2]
      = (processEvent threshold st e).1.sentIds := by
  unfold processEvent
  by_cases hc : (parentPending st.sentIds e && decide (e.defer_count < 5)) = true
  · rw [sendEventStep_defer threshold st.sentIds e hc]
    rfl
  · rw [sendEventStep_post threshold st.sentIds e hc]
    show addId st.sentIds (buildSendBody threshold e).1.event.client_event_id
      = addId st.sentIds e.client_event_id
    rw [(buildSendBody_event_fields threshold e).1]

lemma traceRespectsGate_append (t1 : List SendAction) : ∀ (ids : List String)
    (t2 : List SendAction),
    traceRespectsGate ids (t1 ++ t2)
      = (traceRespectsGate ids t1 && traceRespectsGate (replaySent ids t1) t2) := by
  induction t1 with
  | nil => intro ids t2; rfl
  | cons a rest ih =>
    intro ids t2
    cases a with
    | deferredSuccess e =>
      show traceRespectsGate (addId ids e.client_event_id) (rest ++ t2) = _
      rw [ih]
      rfl
    | posted body off =>
      show (postGateOk ids body.event &&
          traceRespectsGate (addId ids body.event.client_event_id) (rest ++ t2)) = _
      rw [ih]
      rw [← Bool.and_assoc]
      rfl

lemma replaySent_append (t1 : List SendAction) : ∀ (ids : List String)
    (t2 : List SendAction),
    replaySent ids (t1 ++ t2) = replaySent (replaySent ids t1) t2 := by
  induction t1 with
  | nil => intro ids t2; rfl
  | cons a rest ih =>
    intro ids t2
    cases a with
    | deferredSuccess e => exact ih _ _
    | posted body off => exact ih _ _

lemma processGroup_invariant (threshold : Nat) (group : List QItem) :
    ∀ st : QState,
    traceRespectsGate st.sentIds (processGroup threshold st group).2 = true
  ∧ replaySent st.sentIds (processGroup threshold st group).2
      = (processGroup threshold st group).1.sentIds := by
  induction group with
  | nil => intro st; exact ⟨rfl, rfl⟩
  | cons e rest ih =>
    intro st
    have hcons : processGroup threshold st (e :: rest)
        = ((processGroup threshold (processEvent threshold st e).1 rest).1,
           (processEvent threshold st e).2
             :: (processGroup threshold (processEvent threshold st e).1 rest).2) := rfl
    rw [hcons]
    have hsingle : ((processEvent threshold st e).2
        :: (processGroup threshold (processEvent threshold st e).1 rest).2)
        = [(processEvent threshold st e).2]
          ++ (processGroup threshold (processEvent threshold st e).1 rest).2 := rfl
    constructor
    · rw [hsingle, traceRespectsGate_append, processEvent_replay,
          processEvent_gate]
      simpa using (ih (processEvent threshold st e).1).1
    · rw [hsingle, replaySent_append, processEvent_replay]
      exact (ih (processEvent threshold st e).1).2

lemma processGroups_invariant (threshold : Nat) (groups : List (List QItem)) :
    ∀ st : QState,
    traceRespectsGate st.sentIds (processGroups threshold st groups).2 = true
  ∧ replaySent st.sentIds (processGroups threshold st groups).2
      = (processGroups threshold st groups).1.sentIds := by
  induction groups with
  | nil => intro st; exact ⟨rfl, rfl⟩
  | cons g gs ih =>
    intro st
    have hcons : processGroups threshold st (g :: gs)
        = ((processGroups threshold (processGroup threshold st g).1 gs).1,
           (processGroup threshold st g).2
             ++ (processGroups threshold (processGroup threshold st g).1 gs).2) := rfl
    rw [hcons]
    constructor
    · rw [traceRespectsGate_append, (processGroup_invariant threshold g st).1,
          (processGroup_invariant threshold g st).2]
      simpa using (ih (processGroup threshold st g).1).1
    · rw [replaySent_append, (processGroup_invariant threshold g st).2]
      exact (ih (processGroup threshold st g).1).2

/-- **C1 counterexample.** Processing the single-item batch `[c]` (parent
`"p"` never enqueued) from the empty state defers `c`, POSTs nothing — yet
`c`'s id enters the delivered set `S` because the deferral returned
success.  In the next batch, `g` (child of `c`) is POSTed because its
parent is in `S`, even though no POST for `c` has ever been issued: the
queue transmits a child before any dispatch POST for its parent completed,
and an id entered `S` without its POST completing. -/
theorem deferral_enters_sent_ids_without_post :
    Lucidic.Examples.stAfterBatch1.sentIds = ["c"]
  ∧ postedIds (processBatch 65536 { sentIds := [], deferred := [] }
        [Lucidic.Examples.cItem]).2 = []
  ∧ postedIds (processBatch 65536 Lucidic.Examples.stAfterBatch1
        [Lucidic.Examples.gItem]).2 = [some "g"]
  ∧ Lucidic.Examples.gItem.client_parent_event_id = some "c" :=
  ⟨rfl, rfl, rfl, rfl⟩

/-- **C1 (amended).** Under the sequential schedule with every POST
succeeding: an event id enters the delivered set `S` exactly when its
dispatch attempt reports success, which happens either when its POST was
issued (and completed) or when the item was merely deferred — so membership
in `S` does not imply a completed POST; and a POST is issued for an event
only when, at that moment, its parent id is absent or empty, its parent id
is in `S`, or its own `defer_count` has reached 5 (the orphan escape).
The final `S` is exactly the replay of the dispatch trace. -/
theorem batch_dispatch_gating (threshold : Nat) (st : QState)
    (incoming : List QItem) :
    traceRespectsGate st.sentIds (processBatch threshold st incoming).2 = true
  ∧ (processBatch threshold st incoming).1.sentIds
      = replaySent st.sentIds (processBatch threshold st incoming).2 := by
  unfold processBatch
  have h := processGroups_invariant threshold
    (groupByDependencies st.sentIds (incoming ++ st.deferred))
    { st with deferred := [] }
  exact ⟨h.1, h.2.symm⟩

end Lucidic.Queue
